import Mathlib

/-!
Verification development for the CanuckLingo vocabulary-notebook application.

The embedding below translates the application's data model and the
operations on it into Lean:

* `DictionaryEntry`, `Example` mirror the exported interfaces in the
  types module.
* `toggleSave` mirrors `toggleSave` in `App.tsx` (save/unsave keyed by
  the term string).
* `loadNotebook` mirrors the mount-time load effect in `App.tsx`
  (local-storage read, `JSON.parse` in a try/catch).
* `handleSearch`, `explainTerm`, `generateConceptImage` mirror the
  search orchestration in `App.tsx` and the service module; the external
  AI responses are inputs to the functions.
* `pcmToAudioBuffer`, `bytesToInt16` mirror the PCM decoding helper in
  the service module (audio samples modelled as exact rationals: the
  only arithmetic is division of a 16-bit integer by the power of two
  32768, which is exact in 32-bit floats).
* `flashcardBackExample`, `renderFlashcards`, `nextFlashcardIndex`,
  `prevFlashcardIndex` mirror the flashcard component and the flashcard
  view of `App.tsx`.
-/

/-- One example pair: English sentence with Mandarin translation
(interface `Example` in the types module). -/
structure Example where
  english : String
  mandarin : String
deriving DecidableEq, Repr

/-- A saved vocabulary record (interface `DictionaryEntry` in the types
module).  Optional fields of the TypeScript interface become `Option`. -/
structure DictionaryEntry where
  id : String
  term : String
  context : Option String
  definitionEnglish : String
  definitionMandarin : String
  examples : List Example
  usageNote : String
  imageUrl : Option String
  timestamp : Int
deriving DecidableEq, Repr

/-- `toggleSave` from `App.tsx`:
if `notebook.find(n => n.term === entry.term)` is truthy the notebook is
replaced by `notebook.filter(n => n.term !== entry.term)` (unsave),
otherwise by `[...notebook, entry]` (save by appending at the end). -/
def toggleSave (notebook : List DictionaryEntry) (entry : DictionaryEntry) :
    List DictionaryEntry :=
  if notebook.any (fun n => n.term == entry.term) then
    notebook.filter (fun n => n.term != entry.term)
  else
    notebook ++ [entry]

/-- The number of entries of the notebook carrying a given term. -/
def termCount (notebook : List DictionaryEntry) (t : String) : Nat :=
  (notebook.filter (fun n => n.term == t)).length

lemma toggleSave_of_not_present (nb : List DictionaryEntry)
    (e : DictionaryEntry) (h : ∀ n ∈ nb, n.term ≠ e.term) :
    toggleSave nb e = nb ++ [e] := by
  have hany : nb.any (fun n => n.term == e.term) = false := by
    simp only [List.any_eq_false, beq_iff_eq]
    exact h
  simp [toggleSave, hany]

lemma toggleSave_of_present (nb : List DictionaryEntry)
    (e : DictionaryEntry) (h : ∃ n ∈ nb, n.term = e.term) :
    toggleSave nb e = nb.filter (fun n => n.term != e.term) := by
  have hany : nb.any (fun n => n.term == e.term) = true := by
    simp only [List.any_eq_true, beq_iff_eq]
    exact h
  simp [toggleSave, hany]

/-- A concrete entry builder, used for witnesses and counterexamples. -/
def mkEntry (i t : String) : DictionaryEntry :=
  { id := i, term := t, context := none,
    definitionEnglish := "d", definitionMandarin := "m",
    examples := [{ english := "e", mandarin := "c" }],
    usageNote := "u", imageUrl := none, timestamp := 0 }

/-- C1: for every notebook and every entry whose term does not occur in
it, the first toggle appends the entry (adding exactly one entry with
that term, which was absent before), and a second toggle with any entry
of the same term removes it, restoring the original notebook — in
particular the size returns to its prior value. -/
theorem toggle_toggle_round_trip (nb : List DictionaryEntry)
    (e eSnd : DictionaryEntry)
    (habsent : ∀ n ∈ nb, n.term ≠ e.term)
    (hsame : eSnd.term = e.term) :
    toggleSave nb e = nb ++ [e] ∧
    termCount nb e.term = 0 ∧
    termCount (toggleSave nb e) e.term = 1 ∧
    toggleSave (toggleSave nb e) eSnd = nb ∧
    (toggleSave (toggleSave nb e) eSnd).length = nb.length := by
  have hfirst : toggleSave nb e = nb ++ [e] :=
    toggleSave_of_not_present nb e habsent
  have hzero : termCount nb e.term = 0 := by
    unfold termCount
    rw [List.length_eq_zero, List.filter_eq_nil_iff]
    intro n hn
    simp only [beq_iff_eq]
    exact habsent n hn
  have hone : termCount (toggleSave nb e) e.term = 1 := by
    rw [hfirst]
    unfold termCount
    rw [List.filter_append]
    have h1 : nb.filter (fun n => n.term == e.term) = [] := by
      rw [List.filter_eq_nil_iff]
      intro n hn
      simp only [beq_iff_eq]
      exact habsent n hn
    simp [h1]
  have hsecond : toggleSave (toggleSave nb e) eSnd = nb := by
    rw [hfirst]
    rw [toggleSave_of_present (nb ++ [e]) eSnd
      ⟨e, by simp, hsame.symm⟩]
    rw [List.filter_append]
    have h2 : nb.filter (fun n => n.term != eSnd.term) = nb := by
      rw [List.filter_eq_self]
      intro n hn
      simp only [bne_iff_ne, ne_eq]
      rw [hsame]
      exact habsent n hn
    have h3 : [e].filter (fun n => n.term != eSnd.term) = [] := by
      simp [hsame]
    rw [h2, h3, List.append_nil]
  exact ⟨hfirst, hzero, hone, hsecond, by rw [hsecond]⟩

/-- Witness for C1 at a concrete notebook: saving then unsaving the
term "toque" restores the one-entry notebook. -/
theorem toggle_toggle_round_trip_witness :
    toggleSave (toggleSave [mkEntry "1" "eh"] (mkEntry "2" "toque"))
      (mkEntry "3" "toque") = [mkEntry "1" "eh"] :=
  (toggle_toggle_round_trip [mkEntry "1" "eh"] (mkEntry "2" "toque")
    (mkEntry "3" "toque") (by decide) (by decide)).2.2.2.1

/-- C2: toggle removes every entry matching the given entry's term when
some entry with that term is already present, and otherwise appends the
given entry at the end of the notebook. -/
theorem toggleSave_cases (nb : List DictionaryEntry) (e : DictionaryEntry) :
    ((∃ n ∈ nb, n.term = e.term) →
      toggleSave nb e = nb.filter (fun n => n.term != e.term)) ∧
    ((∀ n ∈ nb, n.term ≠ e.term) → toggleSave nb e = nb ++ [e]) :=
  ⟨toggleSave_of_present nb e, toggleSave_of_not_present nb e⟩

/-- Witness for C2: on a notebook already holding "toque" the toggle
empties it; on the empty notebook the toggle appends the entry. -/
theorem toggleSave_cases_witness :
    toggleSave [mkEntry "1" "toque"] (mkEntry "2" "toque") = [] ∧
    toggleSave [] (mkEntry "2" "toque") = [mkEntry "2" "toque"] :=
  ⟨((toggleSave_cases [mkEntry "1" "toque"] (mkEntry "2" "toque")).1
      ⟨mkEntry "1" "toque", by simp, rfl⟩).trans (by decide),
   ((toggleSave_cases [] (mkEntry "2" "toque")).2
      (by simp)).trans (by decide)⟩

/-- C3: term-string uniqueness is preserved by toggle — if no two
entries of the notebook share a term string, the same holds after
toggling any entry (a present term is removed, never inserted again). -/
theorem toggleSave_preserves_term_uniqueness (nb : List DictionaryEntry)
    (e : DictionaryEntry) (h : (nb.map (fun n => n.term)).Nodup) :
    ((toggleSave nb e).map (fun n => n.term)).Nodup := by
  unfold toggleSave
  by_cases hany : nb.any (fun n => n.term == e.term) = true
  · rw [if_pos hany]
    exact h.sublist (List.Sublist.map _ (List.filter_sublist nb))
  · rw [if_neg hany]
    rw [List.map_append]
    rw [List.nodup_append]
    refine ⟨h, List.nodup_singleton _, ?_⟩
    intro t ht ht2
    simp only [List.map_cons, List.map_nil, List.mem_singleton] at ht2
    subst ht2
    rw [List.any_eq_true] at hany
    apply hany
    simp only [List.mem_map] at ht
    obtain ⟨n, hn, hnt⟩ := ht
    exact ⟨n, hn, by simp [hnt]⟩

/-- Witness for C3: a two-entry notebook with distinct terms keeps
distinct terms after toggling a fresh entry. -/
theorem toggleSave_preserves_term_uniqueness_witness :
    ((toggleSave [mkEntry "1" "eh", mkEntry "2" "toque"]
        (mkEntry "3" "loonie")).map (fun n => n.term)).Nodup :=
  toggleSave_preserves_term_uniqueness
    [mkEntry "1" "eh", mkEntry "2" "toque"] (mkEntry "3" "loonie")
    (by decide)

/-- A JSON value, the result type of `JSON.parse`. -/
inductive Json where
  | null
  | bool (b : Bool)
  | num (n : Int)
  | str (s : String)
  | arr (items : List Json)
  | obj (fields : List (String × Json))
deriving Repr

/-- Whether a JSON value is an array — i.e. whether the value installed
as the notebook is a collection at all. -/
def Json.isArr : Json → Bool
  | .arr _ => true
  | _ => false

/-- The mount-time load effect of `App.tsx`:
`localStorage.getItem` either yields no usable string (slot absent, or
the empty string, which is falsy under `if (saved)`) — modelled as
`none` — or yields a string that `JSON.parse` either rejects
(`.error ()`, caught by the `try/catch`, which only logs) or parses to a
JSON value `j`, in which case `setNotebook(JSON.parse(saved))` installs
`j` itself, unvalidated.  The notebook state starts as the empty array,
so the absent and error branches leave it `Json.arr []`. -/
def loadNotebook (parsed : Option (Except Unit Json)) : Json :=
  match parsed with
  | none => .arr []
  | some (.error _) => .arr []
  | some (.ok j) => j

/-- C4 counterexample: the slot content "5" is stored content for which
load does not yield a collection — `JSON.parse "5"` succeeds with the
number 5, which is installed as the notebook unvalidated, so the loaded
value is the JSON number 5, not a collection (and not the empty
collection either). -/
theorem loadNotebook_nonarray_counterexample :
    loadNotebook (some (.ok (Json.num 5))) = Json.num 5 ∧
    (loadNotebook (some (.ok (Json.num 5)))).isArr = false :=
  ⟨rfl, rfl⟩

/-- C4 (amended): when the slot is absent (or empty) or its content
fails JSON parsing, load yields the empty collection without a fatal
error; when the content parses, the parsed JSON value is installed
unvalidated, so load yields a collection exactly when the content
parses to a JSON array. -/
theorem loadNotebook_amended (parsed : Option (Except Unit Json)) :
    ((parsed = none ∨ parsed = some (.error ())) →
      loadNotebook parsed = Json.arr []) ∧
    (∀ j : Json, parsed = some (.ok j) → loadNotebook parsed = j) := by
  constructor
  · rintro (rfl | rfl) <;> rfl
  · rintro j rfl
    rfl

/-- Witness for C4 (amended): an absent slot and an unparsable slot both
load as the empty collection; the slot content "[]" loads as the empty
array it encodes. -/
theorem loadNotebook_amended_witness :
    loadNotebook none = Json.arr [] ∧
    loadNotebook (some (.error ())) = Json.arr [] ∧
    loadNotebook (some (.ok (Json.arr []))) = Json.arr [] :=
  ⟨(loadNotebook_amended none).1 (Or.inl rfl),
   (loadNotebook_amended (some (.error ()))).1 (Or.inr rfl),
   (loadNotebook_amended (some (.ok (Json.arr [])))).2 (Json.arr []) rfl⟩

/-- The `disabled` condition of the Story Mode button in
`renderNotebook` of `App.tsx`:
`notebook.length < 2 || isGeneratingStory`. -/
def storyModeButtonDisabled (nb : List DictionaryEntry)
    (isGeneratingStory : Bool) : Bool :=
  decide (nb.length < 2) || isGeneratingStory

/-- `handleGenerateStory` from `App.tsx`, up to the story-service call:
it returns early when the notebook is empty, and otherwise passes
`notebook.map(n => n.term)` to `generateStoryFromList`.  The result is
the list of terms handed to story generation, or `none` when the guard
returns early. -/
def handleGenerateStoryTerms (nb : List DictionaryEntry) :
    Option (List String) :=
  if nb.length = 0 then none else some (nb.map (fun n => n.term))

/-- C5: the Story Mode button is disabled whenever the notebook holds
fewer than 2 entries, and whenever story generation runs the term list
passed to it is the saved term strings in insertion order; in
particular, two saved entries with terms "toque" and "double-double"
yield exactly the list ["toque", "double-double"]. -/
theorem story_inputs_spec (nb : List DictionaryEntry)
    (g : Bool) (e1 e2 : DictionaryEntry)
    (hlt : nb.length < 2)
    (h1 : e1.term = "toque") (h2 : e2.term = "double-double") :
    storyModeButtonDisabled nb g = true ∧
    (∀ m : List DictionaryEntry, m.length ≠ 0 →
      handleGenerateStoryTerms m = some (m.map (fun n => n.term))) ∧
    handleGenerateStoryTerms [e1, e2] = some ["toque", "double-double"] := by
  refine ⟨?_, ?_, ?_⟩
  · simp [storyModeButtonDisabled, hlt]
  · intro m hm
    simp [handleGenerateStoryTerms, hm]
  · simp [handleGenerateStoryTerms, h1, h2]

/-- Witness for C5: with one saved entry the button is disabled, and
the concrete notebook ["toque", "double-double"] yields exactly that
term list. -/
theorem story_inputs_spec_witness :
    storyModeButtonDisabled [mkEntry "1" "eh"] false = true ∧
    handleGenerateStoryTerms [mkEntry "1" "toque", mkEntry "2" "double-double"] =
      some ["toque", "double-double"] :=
  ⟨(story_inputs_spec [mkEntry "1" "eh"] false
      (mkEntry "1" "toque") (mkEntry "2" "double-double")
      (by decide) (by decide) (by decide)).1,
   (story_inputs_spec [mkEntry "1" "eh"] false
      (mkEntry "1" "toque") (mkEntry "2" "double-double")
      (by decide) (by decide) (by decide)).2.2⟩

/-- The structured explanation payload returned by the Explain call:
the six schema fields (minus nothing — all are required by the schema)
that `explainTerm` parses out of the service response. -/
structure TextData where
  definitionEnglish : String
  definitionMandarin : String
  examples : List Example
  usageNote : String
  imagePrompt : String
deriving DecidableEq, Repr

/-- `explainTerm` from the service module, after the service call:
`response.text` may be absent (`none`) or empty, in which case the
function throws ("No response from AI"); otherwise `JSON.parse(text)`
either throws (the parse result is `.error ()`) or yields the typed
payload.  Errors propagate to the caller as the `.error` case. -/
def explainTerm (responseText : Option String)
    (parse : String → Except Unit TextData) : Except Unit TextData :=
  match responseText with
  | none => .error ()
  | some t => if t = "" then .error () else parse t

/-- An inline binary attachment of a service response part. -/
structure InlineData where
  mimeType : String
  data : String
deriving DecidableEq, Repr

/-- One part of the image-service response content. -/
structure ResponsePart where
  text : Option String
  inlineData : Option InlineData
deriving DecidableEq, Repr

/-- The part-scanning loop of `generateConceptImage`: the first part
carrying inline data yields a data URI; otherwise no image. -/
def findInlineImage : List ResponsePart → Option String
  | [] => none
  | p :: rest =>
    match p.inlineData with
    | some d => some ("data:" ++ d.mimeType ++ ";base64," ++ d.data)
    | none => findInlineImage rest

/-- `generateConceptImage` from the service module: the whole call is
wrapped in a `try/catch` returning `undefined` on any service error;
on success, if `response.candidates?.[0]?.content?.parts` is absent
(`.ok none`) the function returns `undefined`, and otherwise it scans
the parts for inline image data.  It never throws. -/
def generateConceptImage
    (response : Except Unit (Option (List ResponsePart))) : Option String :=
  match response with
  | .error _ => none
  | .ok none => none
  | .ok (some parts) => findInlineImage parts

/-- The observable outcome of one run of `handleSearch` in `App.tsx`:
the candidate result installed by `setCurrentResult` (the screen offers
a save action only when this is non-null), whether the Illustrate step
was reached, and whether the generic failure alert was shown. -/
structure SearchOutcome where
  currentResult : Option DictionaryEntry
  illustrateAttempted : Bool
  alerted : Bool
deriving DecidableEq, Repr

/-- The JavaScript `String.prototype.trim` used by the blank-term
guard of `handleSearch`: strip leading and trailing whitespace. -/
def jsTrim (s : String) : String :=
  String.mk
    (((s.toList.dropWhile Char.isWhitespace).reverse.dropWhile
        Char.isWhitespace).reverse)

/-- `handleSearch` from `App.tsx`: a blank search term returns at once;
then Explain runs, and if it throws the `catch` block alerts
("Something went wrong") with no entry created and the Illustrate step
never reached; if Explain succeeds, the image prompt is
`textData.imagePrompt || searchTerm` (the term when the prompt is the
empty string), Illustrate runs (never throwing), and the entry is
assembled from the explanation fields with the optional image and
installed via `setCurrentResult`. -/
def handleSearch (searchTerm ctx : String) (now : Int)
    (explainResult : Except Unit TextData)
    (illustrate : String → Option String) : SearchOutcome :=
  if jsTrim searchTerm = "" then ⟨none, false, false⟩
  else
    match explainResult with
    | .error _ => ⟨none, false, true⟩
    | .ok td =>
      let prompt := if td.imagePrompt = "" then searchTerm else td.imagePrompt
      ⟨some { id := toString now, term := searchTerm, context := some ctx,
              definitionEnglish := td.definitionEnglish,
              definitionMandarin := td.definitionMandarin,
              examples := td.examples,
              usageNote := td.usageNote,
              imageUrl := illustrate prompt,
              timestamp := now }, true, false⟩

lemma findInlineImage_eq_none (parts : List ResponsePart)
    (h : ∀ p ∈ parts, p.inlineData = none) :
    findInlineImage parts = none := by
  induction parts with
  | nil => rfl
  | cons p rest ih =>
    unfold findInlineImage
    rw [h p (List.mem_cons_self p rest)]
    exact ih fun q hq => h q (List.mem_cons_of_mem p hq)

/-- C6: whenever the Explain step fails — `response.text` missing or
empty, or `JSON.parse` rejecting the payload — the search flow creates
no entry, never attempts the Illustrate step, offers no save (the
result slot stays empty), and ends in the Failed state with the generic
alert. -/
theorem explain_failure_aborts_flow (term ctx : String) (now : Int)
    (ill : String → Option String) (responseText : Option String)
    (parse : String → Except Unit TextData)
    (hterm : jsTrim term ≠ "")
    (hfail : explainTerm responseText parse = .error ()) :
    handleSearch term ctx now (explainTerm responseText parse) ill =
      ⟨none, false, true⟩ ∧
    explainTerm none parse = .error () := by
  constructor
  · rw [hfail]
    simp [handleSearch, hterm]
  · rfl

/-- Witness for C6: an unparsable service response ("not json") aborts
the search for "toque" with no entry, no Illustrate attempt and the
alert shown. -/
theorem explain_failure_aborts_flow_witness :
    handleSearch "toque" "" 0
      (explainTerm (some "not json") (fun _ => .error ()))
      (fun _ => none) = ⟨none, false, true⟩ :=
  (explain_failure_aborts_flow "toque" "" 0 (fun _ => none)
    (some "not json") (fun _ => .error ()) (by decide) rfl).1

/-- C7: when Explain succeeds and Illustrate fails — a service error or
a response with no inline-image part, both of which make
`generateConceptImage` yield no image — the search still produces an
entry whose text fields all come from the explanation, with an absent
image reference, and the flow reaches Ready (result installed, no
alert), not Failed. -/
theorem illustrate_failure_degrades_gracefully (term ctx : String)
    (now : Int) (td : TextData)
    (resp : Except Unit (Option (List ResponsePart)))
    (hterm : jsTrim term ≠ "")
    (hfail : generateConceptImage resp = none) :
    handleSearch term ctx now (.ok td) (fun _ => generateConceptImage resp) =
      ⟨some { id := toString now, term := term, context := some ctx,
              definitionEnglish := td.definitionEnglish,
              definitionMandarin := td.definitionMandarin,
              examples := td.examples,
              usageNote := td.usageNote,
              imageUrl := none,
              timestamp := now }, true, false⟩ ∧
    generateConceptImage (.error ()) = none ∧
    (∀ parts : List ResponsePart, (∀ p ∈ parts, p.inlineData = none) →
      generateConceptImage (.ok (some parts)) = none) := by
  refine ⟨?_, rfl, ?_⟩
  · simp [handleSearch, hterm, hfail]
  · intro parts h
    exact findInlineImage_eq_none parts h

/-- Witness for C7: searching "toque" with a successful explanation and
a failed image service yields a Ready outcome holding an entry with the
explanation's text fields and no image. -/
theorem illustrate_failure_degrades_gracefully_witness :
    handleSearch "toque" "" 0
      (.ok { definitionEnglish := "d", definitionMandarin := "m",
             examples := [{ english := "e", mandarin := "c" }],
             usageNote := "u", imagePrompt := "p" })
      (fun _ => generateConceptImage (.error ())) =
      ⟨some { id := "0", term := "toque", context := some "",
              definitionEnglish := "d", definitionMandarin := "m",
              examples := [{ english := "e", mandarin := "c" }],
              usageNote := "u", imageUrl := none, timestamp := 0 },
        true, false⟩ :=
  ((illustrate_failure_degrades_gracefully "toque" "" 0
    { definitionEnglish := "d", definitionMandarin := "m",
      examples := [{ english := "e", mandarin := "c" }],
      usageNote := "u", imagePrompt := "p" }
    (.error ()) (by decide) rfl).1).trans (by decide)

/-- The audio buffer produced by `pcmToAudioBuffer`: channel count,
sample rate, and the single channel's samples.  Samples are exact
rationals: the only arithmetic performed is division of a 16-bit
integer by 32768, which is exact in the 32-bit floats of the real
buffer. -/
structure AudioBuffer where
  numberOfChannels : Nat
  sampleRate : Nat
  channelData : List ℚ
deriving DecidableEq, Repr

/-- The `Int16Array` view taken by `pcmToAudioBuffer` over the received
byte stream: consecutive little-endian byte pairs reinterpreted as
signed 16-bit integers; a trailing odd byte is dropped
(`data.byteLength / 2` truncates). -/
def bytesToInt16 : List Nat → List Int
  | lo :: hi :: rest =>
    (if lo + 256 * hi < 32768 then ((lo + 256 * hi : Nat) : Int)
     else ((lo + 256 * hi : Nat) : Int) - 65536) :: bytesToInt16 rest
  | _ => []

/-- `pcmToAudioBuffer` from the service module: creates a 1-channel
buffer at the given sample rate (24000 at its call site in `playTTS`)
whose i-th sample is `pcm16[i] / 32768.0`. -/
def pcmToAudioBuffer (data : List Nat) (sampleRate : Nat) : AudioBuffer :=
  { numberOfChannels := 1,
    sampleRate := sampleRate,
    channelData := (bytesToInt16 data).map (fun s : ℤ => (s : ℚ) / 32768) }

lemma bytesToInt16_bounds : ∀ (data : List Nat), (∀ b ∈ data, b < 256) →
    ∀ s ∈ bytesToInt16 data, -32768 ≤ s ∧ s ≤ 32767
  | [], _, s, hs => by simp [bytesToInt16] at hs
  | [b], _, s, hs => by simp [bytesToInt16] at hs
  | lo :: hi :: rest, h, s, hs => by
    rw [bytesToInt16] at hs
    rcases List.mem_cons.mp hs with rfl | hmem
    · have hlo : lo < 256 := h lo (by simp)
      have hhi : hi < 256 := h hi (by simp)
      by_cases hc : lo + 256 * hi < 32768 <;> simp only [hc, if_true, if_false] <;> omega
    · exact bytesToInt16_bounds rest (fun b hb => h b (by simp [hb])) s hmem

lemma int16_sample_in_range (s : Int) (h1 : -32768 ≤ s) (h2 : s ≤ 32767) :
    -1 ≤ (s : ℚ) / 32768 ∧ (s : ℚ) / 32768 ≤ 1 := by
  have hq1 : (-32768 : ℚ) ≤ (s : ℚ) := by exact_mod_cast h1
  have hq2 : (s : ℚ) ≤ 32767 := by exact_mod_cast h2
  constructor <;> nlinarith

/-- C8: decoding a received 16-bit PCM byte stream yields a
single-channel buffer at 24000 Hz whose i-th sample is the i-th signed
16-bit integer of the stream divided by 32768, and every decoded
sample lies in [-1, 1]. -/
theorem pcm_decode_normalized (data : List Nat)
    (hbytes : ∀ b ∈ data, b < 256) :
    (pcmToAudioBuffer data 24000).numberOfChannels = 1 ∧
    (pcmToAudioBuffer data 24000).sampleRate = 24000 ∧
    (∀ i : Nat, (pcmToAudioBuffer data 24000).channelData[i]? =
      ((bytesToInt16 data)[i]?).map (fun s : ℤ => (s : ℚ) / 32768)) ∧
    (∀ q ∈ (pcmToAudioBuffer data 24000).channelData, -1 ≤ q ∧ q ≤ 1) := by
  refine ⟨rfl, rfl, ?_, ?_⟩
  · intro i
    simp [pcmToAudioBuffer]
  · intro q hq
    simp only [pcmToAudioBuffer, List.mem_map] at hq
    obtain ⟨s, hs, rfl⟩ := hq
    obtain ⟨h1, h2⟩ := bytesToInt16_bounds data hbytes s hs
    exact int16_sample_in_range s h1 h2

/-- Witness for C8: the byte stream [0, 128, 255, 127] decodes to the
two samples -32768/32768 = -1 and 32767/32768, a mono buffer at
24000 Hz. -/
theorem pcm_decode_normalized_witness :
    (pcmToAudioBuffer [0, 128, 255, 127] 24000).numberOfChannels = 1 ∧
    (pcmToAudioBuffer [0, 128, 255, 127] 24000).sampleRate = 24000 ∧
    (pcmToAudioBuffer [0, 128, 255, 127] 24000).channelData[0]? =
      some (-1 : ℚ) := by
  have h := pcm_decode_normalized [0, 128, 255, 127] (by decide)
  refine ⟨h.1, h.2.1, ?_⟩
  rw [h.2.2.1 0]
  simp [bytesToInt16]

/-- The back face of the flashcard component renders
`entry.examples[0].english` with no emptiness guard: `none` models the
failing dereference (`entry.examples[0]` is undefined and reading
`.english` of it throws) when the examples list is empty. -/
def flashcardBackExample (entry : DictionaryEntry) : Option String :=
  entry.examples.head?.map (fun ex => ex.english)

/-- C9: the flashcard back face is well-defined exactly on entries with
a non-empty examples list — it shows the first example's English
sentence — while an entry with an empty examples list (permitted by the
entry type and the response schema) makes the unguarded first-element
access fail. -/
theorem flashcard_back_requires_examples (e : DictionaryEntry) :
    (∀ ex : Example, ∀ r : List Example, e.examples = ex :: r →
      flashcardBackExample e = some ex.english) ∧
    (e.examples = [] → flashcardBackExample e = none) := by
  constructor
  · intro ex r hx
    simp [flashcardBackExample, hx]
  · intro hx
    simp [flashcardBackExample, hx]

/-- Witness for C9: an entry with one example renders its English
sentence; the same entry with its examples emptied makes the back-face
access fail. -/
theorem flashcard_back_requires_examples_witness :
    flashcardBackExample (mkEntry "1" "eh") = some "e" ∧
    flashcardBackExample { mkEntry "1" "eh" with examples := [] } = none :=
  ⟨(flashcard_back_requires_examples (mkEntry "1" "eh")).1
      { english := "e", mandarin := "c" } [] rfl,
   (flashcard_back_requires_examples
      { mkEntry "1" "eh" with examples := [] }).2 rfl⟩

/-- `onNext` of the flashcard view in `App.tsx`:
`(prev + 1) % notebook.length`. -/
def nextFlashcardIndex (i n : Nat) : Nat := (i + 1) % n

/-- `onPrev` of the flashcard view in `App.tsx`:
`(prev - 1 + notebook.length) % notebook.length` (for `i < n` the
natural-number form `(i + n - 1) % n` agrees with the JavaScript
integer form). -/
def prevFlashcardIndex (i n : Nat) : Nat := (i + n - 1) % n

/-- What `renderFlashcards` in `App.tsx` shows for a notebook and a
cursor: the empty-notebook placeholder, a card for
`notebook[flashcardIndex]`, or — when the unclamped cursor is out of
range — the undefined dereference passed to the card component. -/
inductive FlashcardsView where
  | emptyPrompt
  | card (entry : DictionaryEntry)
  | outOfRange
deriving DecidableEq, Repr

/-- `renderFlashcards` from `App.tsx`: the notebook-length-zero guard
renders the placeholder; otherwise `notebook[flashcardIndex]` is read
with no bound check (`outOfRange` models the undefined element).  The
cursor `flashcardIndex` is separate state that `toggleSave` never
touches. -/
def renderFlashcards (nb : List DictionaryEntry) (i : Nat) :
    FlashcardsView :=
  if nb.length = 0 then .emptyPrompt
  else
    match nb[i]? with
    | some e => .card e
    | none => .outOfRange

/-- C10: next and previous keep a valid cursor within [0, N) for a
notebook of fixed size N, but the cursor is not clamped on shrinkage:
concretely, with a two-entry notebook and cursor 1 (in range, showing a
card), toggling away the first entry leaves a one-entry notebook while
the cursor stays 1, and the flashcard view then reads an out-of-range
position — in-range-cursor is not an invariant preserved by every
operation. -/
theorem flashcard_cursor_not_clamped (i n : Nat) (h : i < n) :
    (nextFlashcardIndex i n < n ∧ prevFlashcardIndex i n < n) ∧
    renderFlashcards [mkEntry "1" "eh", mkEntry "2" "toque"] 1 =
      .card (mkEntry "2" "toque") ∧
    toggleSave [mkEntry "1" "eh", mkEntry "2" "toque"] (mkEntry "3" "eh") =
      [mkEntry "2" "toque"] ∧
    renderFlashcards
      (toggleSave [mkEntry "1" "eh", mkEntry "2" "toque"] (mkEntry "3" "eh"))
      1 = .outOfRange := by
  have hn : 0 < n := lt_of_le_of_lt (Nat.zero_le i) h
  refine ⟨⟨Nat.mod_lt _ hn, Nat.mod_lt _ hn⟩, by decide, by decide, by decide⟩

/-- Witness for C10 at cursor 1 of a two-entry notebook: next and
previous stay in range, yet after the first entry is toggled away the
same cursor reads out of range. -/
theorem flashcard_cursor_not_clamped_witness :
    nextFlashcardIndex 1 2 < 2 ∧ prevFlashcardIndex 1 2 < 2 ∧
    renderFlashcards
      (toggleSave [mkEntry "1" "eh", mkEntry "2" "toque"] (mkEntry "3" "eh"))
      1 = .outOfRange :=
  ⟨(flashcard_cursor_not_clamped 1 2 (by decide)).1.1,
   (flashcard_cursor_not_clamped 1 2 (by decide)).1.2,
   (flashcard_cursor_not_clamped 1 2 (by decide)).2.2.2⟩
